import Mathlib

/-!
Verification of the SafeCar edge service's reading validation, classification
and backend-mapping pipeline, shallowly embedded from:
  - src/telemetry/domain/entities.py        (SensorReading)
  - src/telemetry/domain/services.py        (SensorReadingService)
  - src/telemetry/infrastructure/external_services.py (SafeCarBackendService)
Floats are embedded as rationals; all thresholds and example values used here
are exactly representable. The string severity constants of the code form a
closed three-value set and are embedded as an enumeration.
-/

namespace SafeCar

/-- Python str.lower() for the ASCII labels this code handles: lower-case every
character (written over the character list so that proofs can evaluate it). -/
def pyLower (s : String) : String := String.mk (s.data.map Char.toLower)

/-- Python str.strip(): drop leading and trailing whitespace (written over the
character list so that proofs can evaluate it). -/
def pyStrip (s : String) : String :=
  String.mk (((s.data.dropWhile Char.isWhitespace).reverse.dropWhile Char.isWhitespace).reverse)

/-- Alert severity. The code uses the string constants "INFO", "WARNING",
"CRITICAL" (services.py, determine_alert_severity); a closed enum models them. -/
inductive Severity where
  | INFO
  | WARNING
  | CRITICAL
deriving DecidableEq, Repr

/-- Numeric rank of a severity, realizing the order INFO < WARNING < CRITICAL. -/
def sevRank : Severity → Nat
  | .INFO => 0
  | .WARNING => 1
  | .CRITICAL => 2

/-- Join (maximum) of two severities under INFO < WARNING < CRITICAL. -/
def sevMax : Severity → Severity → Severity
  | .CRITICAL, _ => .CRITICAL
  | _, .CRITICAL => .CRITICAL
  | .WARNING, _ => .WARNING
  | _, .WARNING => .WARNING
  | .INFO, .INFO => .INFO

/-- The SensorReading entity (entities.py). Optional sensor fields are Option;
the timestamp is always set by the constructor (`timestamp or datetime.now(utc)`),
so it is embedded as a plain ISO-8601 string. The id and created_at fields are
assigned by the persistence boundary and play no role in the verified core. -/
structure SensorReading where
  device_id : String
  vehicle_id : Int
  driver_id : Int
  sensor_location : Option String
  cabin_temperature_celsius : Option ℚ
  cabin_humidity_percent : Option ℚ
  engine_temperature_celsius : Option ℚ
  engine_humidity_percent : Option ℚ
  gas_type : Option String
  gas_concentration_ppm : Option ℚ
  latitude : Option ℚ
  longitude : Option ℚ
  current_amperes : Option ℚ
  timestamp : String
deriving DecidableEq, Repr

/-- entities.py has_cabin_temperature_reading. -/
def SensorReading.has_cabin_temperature_reading (r : SensorReading) : Bool :=
  r.cabin_temperature_celsius.isSome

/-- entities.py has_cabin_humidity_reading. -/
def SensorReading.has_cabin_humidity_reading (r : SensorReading) : Bool :=
  r.cabin_humidity_percent.isSome

/-- entities.py has_engine_temperature_reading. -/
def SensorReading.has_engine_temperature_reading (r : SensorReading) : Bool :=
  r.engine_temperature_celsius.isSome

/-- entities.py has_engine_humidity_reading. -/
def SensorReading.has_engine_humidity_reading (r : SensorReading) : Bool :=
  r.engine_humidity_percent.isSome

/-- entities.py has_gas_reading: both gas_type and gas_concentration_ppm present. -/
def SensorReading.has_gas_reading (r : SensorReading) : Bool :=
  r.gas_type.isSome && r.gas_concentration_ppm.isSome

/-- entities.py has_gps_reading: both latitude and longitude present. -/
def SensorReading.has_gps_reading (r : SensorReading) : Bool :=
  r.latitude.isSome && r.longitude.isSome

/-- entities.py has_current_reading. -/
def SensorReading.has_current_reading (r : SensorReading) : Bool :=
  r.current_amperes.isSome

/-- entities.py is_valid: at least one sensor value is present (the gas and GPS
pairs count only when both of their fields are present). -/
def SensorReading.is_valid (r : SensorReading) : Bool :=
  r.has_cabin_temperature_reading ||
  r.has_cabin_humidity_reading ||
  r.has_engine_temperature_reading ||
  r.has_engine_humidity_reading ||
  r.has_gas_reading ||
  r.has_gps_reading ||
  r.has_current_reading

/-- Validation failures of create_sensor_reading (services.py). Each
constructor stands for one distinct raise site / ValueError message:
emptyIdentifier = "Device ID cannot be empty",
invalidVehicleId = "Vehicle ID must be a positive integer",
invalidDriverId = "Driver ID must be a positive integer",
invalidEnum = "Sensor location must be CABINA or MOTOR",
outOfRange f = the range message for field f (including the non-negative
gas-concentration message), missingDependentField = "Gas type is required when
concentration is provided", incompleteCoordinatePair = "Latitude and longitude
must be provided together", invalidTimestamp = "Invalid timestamp format",
emptyReading = "At least one sensor reading must be provided". -/
inductive ValidationError where
  | emptyIdentifier
  | invalidVehicleId
  | invalidDriverId
  | invalidEnum
  | outOfRange (field : String)
  | missingDependentField
  | incompleteCoordinatePair
  | invalidTimestamp
  | emptyReading
deriving DecidableEq, Repr

/-- Python: vehicle_id is None or vehicle_id <= 0 (same for driver_id). -/
def idInvalid : Option Int → Bool
  | none => true
  | some v => v ≤ 0

/-- A present value lying outside the closed interval lo..hi. -/
def outOfRangeOpt (lo hi : ℚ) : Option ℚ → Bool
  | none => false
  | some v => v < lo || hi < v

/-- Python: gas_concentration_ppm is not None and gas_concentration_ppm < 0. -/
def gasNegative : Option ℚ → Bool
  | none => false
  | some v => v < 0

/-- Python: gas_concentration_ppm present while gas_type is None or blank. -/
def gasTypeMissing (ppm : Option ℚ) (gt : Option String) : Bool :=
  ppm.isSome &&
    (match gt with
     | none => true
     | some s => pyStrip s = "")

/-- Python truthiness check `if sensor_location and sensor_location not in
['CABINA', 'MOTOR']`: the empty string is falsy and skips the check. -/
def locationInvalid : Option String → Bool
  | none => false
  | some s => s ≠ "" && s ≠ "CABINA" && s ≠ "MOTOR"

/-- Python `gas_type.strip() if gas_type else None`: None and the empty string
become None, anything else is trimmed. -/
def stripGasType : Option String → Option String
  | none => none
  | some s => if s = "" then none else some (pyStrip s)

/-- Python exactly-one-coordinate condition of services.py line 132. -/
def coordsIncomplete (latitude longitude : Option ℚ) : Bool :=
  (latitude.isSome && longitude.isNone) || (latitude.isNone && longitude.isSome)

/-- Timestamp handling of services.py lines 141-146. parseTs abstracts the
external dateutil parser (returning the UTC-normalized form on success);
Python `if timestamp:` treats None and the empty string alike as absent. -/
def parseTimestamp (parseTs : String → Option String) :
    Option String → Except ValidationError (Option String)
  | none => .ok none
  | some s =>
      if s = "" then .ok none
      else
        match parseTs s with
        | some t => .ok (some t)
        | none => .error .invalidTimestamp

/-- Final step of create_sensor_reading (services.py 165-168): reject the
constructed reading when it carries no sensor value. -/
def finishReading (reading : SensorReading) : Except ValidationError SensorReading :=
  if reading.is_valid then .ok reading else .error .emptyReading

/-- services.py create_sensor_reading: the full validation chain in source
order, ending with the is_valid (non-empty reading) check. parseTs abstracts
the external dateutil parser and now the construction-time clock used when no
timestamp is given. -/
def create_sensor_reading
    (parseTs : String → Option String) (now : String)
    (device_id : String) (vehicle_id : Option Int) (driver_id : Option Int)
    (sensor_location : Option String)
    (cabin_temperature_celsius : Option ℚ)
    (cabin_humidity_percent : Option ℚ)
    (engine_temperature_celsius : Option ℚ)
    (engine_humidity_percent : Option ℚ)
    (gas_type : Option String)
    (gas_concentration_ppm : Option ℚ)
    (latitude : Option ℚ)
    (longitude : Option ℚ)
    (current_amperes : Option ℚ)
    (timestamp : Option String) :
    Except ValidationError SensorReading :=
  if pyStrip device_id = "" then .error .emptyIdentifier
  else if idInvalid vehicle_id then .error .invalidVehicleId
  else if idInvalid driver_id then .error .invalidDriverId
  else if locationInvalid sensor_location then .error .invalidEnum
  else if outOfRangeOpt (-40) 80 cabin_temperature_celsius then
    .error (.outOfRange "cabin_temperature_celsius")
  else if outOfRangeOpt (-40) 125 engine_temperature_celsius then
    .error (.outOfRange "engine_temperature_celsius")
  else if outOfRangeOpt 0 100 cabin_humidity_percent then
    .error (.outOfRange "cabin_humidity_percent")
  else if outOfRangeOpt 0 100 engine_humidity_percent then
    .error (.outOfRange "engine_humidity_percent")
  else if gasNegative gas_concentration_ppm then
    .error (.outOfRange "gas_concentration_ppm")
  else if gasTypeMissing gas_concentration_ppm gas_type then
    .error .missingDependentField
  else if outOfRangeOpt (-90) 90 latitude then .error (.outOfRange "latitude")
  else if outOfRangeOpt (-180) 180 longitude then .error (.outOfRange "longitude")
  else if coordsIncomplete latitude longitude then .error .incompleteCoordinatePair
  else if outOfRangeOpt 0 5 current_amperes then .error (.outOfRange "current_amperes")
  else
    match parseTimestamp parseTs timestamp with
    | .error e => .error e
    | .ok timestamp_dt =>
        finishReading
          { device_id := pyStrip device_id
            vehicle_id := vehicle_id.getD 0
            driver_id := driver_id.getD 0
            sensor_location := sensor_location
            cabin_temperature_celsius := cabin_temperature_celsius
            cabin_humidity_percent := cabin_humidity_percent
            engine_temperature_celsius := engine_temperature_celsius
            engine_humidity_percent := engine_humidity_percent
            gas_type := stripGasType gas_type
            gas_concentration_ppm := gas_concentration_ppm
            latitude := latitude
            longitude := longitude
            current_amperes := current_amperes
            timestamp := timestamp_dt.getD now }

/-- Threshold constant of SensorReadingService. -/
def CABIN_TEMP_CRITICAL_HIGH : ℚ := 50

/-- Threshold constant of SensorReadingService. -/
def CABIN_TEMP_WARNING_HIGH : ℚ := 40

/-- Threshold constant of SensorReadingService. -/
def ENGINE_TEMP_CRITICAL_HIGH : ℚ := 110

/-- Threshold constant of SensorReadingService. -/
def ENGINE_TEMP_WARNING_HIGH : ℚ := 95

/-- Threshold constant of SensorReadingService. -/
def TEMP_WARNING_LOW : ℚ := -10

/-- Threshold constant of SensorReadingService. -/
def HUMIDITY_CRITICAL_HIGH : ℚ := 90

/-- Threshold constant of SensorReadingService. -/
def HUMIDITY_WARNING_LOW : ℚ := 20

/-- Threshold constant of SensorReadingService. -/
def GAS_CRITICAL_PPM : ℚ := 5000

/-- Threshold constant of SensorReadingService. -/
def GAS_WARNING_PPM : ℚ := 1000

/-- Threshold constant of SensorReadingService. -/
def CURRENT_CRITICAL_HIGH : ℚ := 9/2

/-- Threshold constant of SensorReadingService. -/
def CURRENT_WARNING_HIGH : ℚ := 4

/-- Threshold constant of SensorReadingService. -/
def CURRENT_WARNING_LOW : ℚ := 1/2

/-- Cabin-temperature check of determine_alert_severity (services.py 182-188). -/
def cabinTempStep (r : SensorReading) (severity : Severity) : Severity :=
  if r.has_cabin_temperature_reading then
    match r.cabin_temperature_celsius with
    | some temp =>
        if CABIN_TEMP_CRITICAL_HIGH ≤ temp ∨ temp ≤ TEMP_WARNING_LOW then .CRITICAL
        else if CABIN_TEMP_WARNING_HIGH ≤ temp then .WARNING
        else severity
    | none => severity
  else severity

/-- Engine-temperature check of determine_alert_severity (services.py 190-196). -/
def engineTempStep (r : SensorReading) (severity : Severity) : Severity :=
  if r.has_engine_temperature_reading then
    match r.engine_temperature_celsius with
    | some temp =>
        if ENGINE_TEMP_CRITICAL_HIGH ≤ temp then .CRITICAL
        else if ENGINE_TEMP_WARNING_HIGH ≤ temp ∧ severity ≠ .CRITICAL then .WARNING
        else severity
    | none => severity
  else severity

/-- One iteration of the humidity loop of determine_alert_severity
(services.py 198-205); applied to the cabin then the engine humidity. -/
def humidityCheck (humidity : Option ℚ) (severity : Severity) : Severity :=
  match humidity with
  | some h =>
      if HUMIDITY_CRITICAL_HIGH ≤ h then
        if severity ≠ .CRITICAL then .WARNING else severity
      else if h ≤ HUMIDITY_WARNING_LOW ∧ severity = .INFO then .WARNING
      else severity
  | none => severity

/-- Gas check of determine_alert_severity (services.py 207-213); the guard is
has_gas_reading, which requires the gas type as well as the concentration. -/
def gasStep (r : SensorReading) (severity : Severity) : Severity :=
  if r.has_gas_reading then
    match r.gas_concentration_ppm with
    | some gas_ppm =>
        if GAS_CRITICAL_PPM ≤ gas_ppm then .CRITICAL
        else if GAS_WARNING_PPM ≤ gas_ppm ∧ severity ≠ .CRITICAL then .WARNING
        else severity
    | none => severity
  else severity

/-- Current check of determine_alert_severity (services.py 215-222). -/
def currentStep (r : SensorReading) (severity : Severity) : Severity :=
  if r.has_current_reading then
    match r.current_amperes with
    | some current =>
        if CURRENT_CRITICAL_HIGH ≤ current ∨ current ≤ CURRENT_WARNING_LOW then
          if severity ≠ .CRITICAL then .WARNING else severity
        else if CURRENT_WARNING_HIGH ≤ current ∧ severity = .INFO then .WARNING
        else severity
    | none => severity
  else severity

/-- services.py determine_alert_severity: sequential escalation of a running
severity, starting at INFO, in source order. -/
def determine_alert_severity (r : SensorReading) : Severity :=
  let severity := Severity.INFO
  let severity := cabinTempStep r severity
  let severity := engineTempStep r severity
  let severity := humidityCheck r.cabin_humidity_percent severity
  let severity := humidityCheck r.engine_humidity_percent severity
  let severity := gasStep r severity
  currentStep r severity

/-- services.py determine_telemetry_type: CRITICAL-priority branch followed by
the sensor-availability fallback chain. -/
def determine_telemetry_type (r : SensorReading) : String :=
  let severity := determine_alert_severity r
  if severity = .CRITICAL ∧ r.has_gas_reading then "CABIN_GAS_DETECTED"
  else if severity = .CRITICAL ∧ r.has_engine_temperature_reading then "ENGINE_OVERHEAT"
  else if severity = .CRITICAL ∧ r.has_current_reading then "ELECTRICAL_FAULT"
  else if r.has_gas_reading then "CABIN_GAS_DETECTED"
  else if r.has_gps_reading then "LOCATION_UPDATE"
  else if r.has_engine_temperature_reading ∨ r.has_cabin_temperature_reading then
    "TEMPERATURE_ANOMALY"
  else if r.has_current_reading then "ELECTRICAL_FAULT"
  else "GENERAL"

/-- A value of the flat JSON payload sent to the backend. -/
inductive JsonValue where
  | str (s : String)
  | num (q : ℚ)
deriving DecidableEq, Repr

/-- The gas_type_mapping dictionary of external_services.py (lines 134-144). -/
def gas_type_mapping : List (String × String) :=
  [("methane", "FUEL_VAPOR"),
   ("propane", "FUEL_VAPOR"),
   ("butane", "FUEL_VAPOR"),
   ("lpg", "FUEL_VAPOR"),
   ("alcohol", "FUEL_VAPOR"),
   ("hydrogen", "FUEL_VAPOR"),
   ("smoke", "SMOKE"),
   ("co", "CO"),
   ("co2", "CO2")]

/-- external_services.py lines 145-148: gas_type_mapping.get(gas_type.lower(),
UNKNOWN). -/
def backendGasType (gas_type : String) : String :=
  (gas_type_mapping.lookup (pyLower gas_type)).getD "UNKNOWN"

/-- Cabin-temperature block of _build_telemetry_payload (lines 117-118). -/
def cabinTempSection (r : SensorReading) : List (String × JsonValue) :=
  match r.cabin_temperature_celsius with
  | some v => [("cabinTemperature", JsonValue.num v)]
  | none => []

/-- Engine-temperature block of _build_telemetry_payload (lines 121-122). -/
def engineTempSection (r : SensorReading) : List (String × JsonValue) :=
  match r.engine_temperature_celsius with
  | some v => [("engineTemperature", JsonValue.num v)]
  | none => []

/-- Cabin-humidity block of _build_telemetry_payload (lines 125-126). -/
def cabinHumSection (r : SensorReading) : List (String × JsonValue) :=
  match r.cabin_humidity_percent with
  | some v => [("cabinHumidity", JsonValue.num v)]
  | none => []

/-- Gas block of _build_telemetry_payload (lines 129-151), guarded by
has_gas_reading. -/
def gasSection (r : SensorReading) : List (String × JsonValue) :=
  if r.has_gas_reading then
    match r.gas_type, r.gas_concentration_ppm with
    | some gt, some ppm =>
        [("cabinGasType", JsonValue.str (backendGasType gt)),
         ("cabinGasConcentration", JsonValue.num ppm)]
    | _, _ => []
  else []

/-- GPS block of _build_telemetry_payload (lines 154-156), guarded by
has_gps_reading. -/
def gpsSection (r : SensorReading) : List (String × JsonValue) :=
  if r.has_gps_reading then
    match r.latitude, r.longitude with
    | some la, some lo =>
        [("latitude", JsonValue.num la), ("longitude", JsonValue.num lo)]
    | _, _ => []
  else []

/-- Current block of _build_telemetry_payload (lines 159-160). -/
def currentSection (r : SensorReading) : List (String × JsonValue) :=
  match r.current_amperes with
  | some v => [("electricalCurrent", JsonValue.num v)]
  | none => []

/-- external_services.py _build_telemetry_payload: the flat payload, as an
association list in insertion order (Python dicts preserve it; all keys are
distinct). -/
def build_telemetry_payload (r : SensorReading) (telemetry_type severity : String) :
    List (String × JsonValue) :=
  [("macAddress", JsonValue.str r.device_id),
   ("type", JsonValue.str telemetry_type),
   ("severity", JsonValue.str severity),
   ("timestamp", JsonValue.str r.timestamp)]
  ++ cabinTempSection r
  ++ engineTempSection r
  ++ cabinHumSection r
  ++ gasSection r
  ++ gpsSection r
  ++ currentSection r

/-- cabinTempStep with the optional-field dereference made explicit: under the
has-guard the field is read and compared; comparing an absent value would be a
Python TypeError, modelled as none. -/
def cabinTempStepE (r : SensorReading) (severity : Severity) : Option Severity :=
  if r.has_cabin_temperature_reading then
    match r.cabin_temperature_celsius with
    | some temp =>
        some (if CABIN_TEMP_CRITICAL_HIGH ≤ temp ∨ temp ≤ TEMP_WARNING_LOW then .CRITICAL
              else if CABIN_TEMP_WARNING_HIGH ≤ temp then .WARNING
              else severity)
    | none => none
  else some severity

/-- engineTempStep with the optional-field dereference made explicit. -/
def engineTempStepE (r : SensorReading) (severity : Severity) : Option Severity :=
  if r.has_engine_temperature_reading then
    match r.engine_temperature_celsius with
    | some temp =>
        some (if ENGINE_TEMP_CRITICAL_HIGH ≤ temp then .CRITICAL
              else if ENGINE_TEMP_WARNING_HIGH ≤ temp ∧ severity ≠ .CRITICAL then .WARNING
              else severity)
    | none => none
  else some severity

/-- gasStep with the optional-field dereference made explicit. -/
def gasStepE (r : SensorReading) (severity : Severity) : Option Severity :=
  if r.has_gas_reading then
    match r.gas_concentration_ppm with
    | some gas_ppm =>
        some (if GAS_CRITICAL_PPM ≤ gas_ppm then .CRITICAL
              else if GAS_WARNING_PPM ≤ gas_ppm ∧ severity ≠ .CRITICAL then .WARNING
              else severity)
    | none => none
  else some severity

/-- currentStep with the optional-field dereference made explicit. -/
def currentStepE (r : SensorReading) (severity : Severity) : Option Severity :=
  if r.has_current_reading then
    match r.current_amperes with
    | some current =>
        some (if CURRENT_CRITICAL_HIGH ≤ current ∨ current ≤ CURRENT_WARNING_LOW then
                if severity ≠ .CRITICAL then .WARNING else severity
              else if CURRENT_WARNING_HIGH ≤ current ∧ severity = .INFO then .WARNING
              else severity)
    | none => none
  else some severity

/-- determine_alert_severity with every guarded dereference failure-explicit;
the humidity loop tests each value against None directly, so it cannot fail. -/
def determine_alert_severityE (r : SensorReading) : Option Severity := do
  let severity := Severity.INFO
  let severity ← cabinTempStepE r severity
  let severity ← engineTempStepE r severity
  let severity := humidityCheck r.cabin_humidity_percent severity
  let severity := humidityCheck r.engine_humidity_percent severity
  let severity ← gasStepE r severity
  currentStepE r severity

/-- determine_telemetry_type with the severity computation failure-explicit;
the branch conditions themselves only use total presence checks. -/
def determine_telemetry_typeE (r : SensorReading) : Option String := do
  let severity ← determine_alert_severityE r
  pure (if severity = .CRITICAL ∧ r.has_gas_reading then "CABIN_GAS_DETECTED"
        else if severity = .CRITICAL ∧ r.has_engine_temperature_reading then "ENGINE_OVERHEAT"
        else if severity = .CRITICAL ∧ r.has_current_reading then "ELECTRICAL_FAULT"
        else if r.has_gas_reading then "CABIN_GAS_DETECTED"
        else if r.has_gps_reading then "LOCATION_UPDATE"
        else if r.has_engine_temperature_reading ∨ r.has_cabin_temperature_reading then
          "TEMPERATURE_ANOMALY"
        else if r.has_current_reading then "ELECTRICAL_FAULT"
        else "GENERAL")

/-- Cabin-temperature block of the payload builder, dereference made explicit. -/
def cabinTempSectionE (r : SensorReading) : Option (List (String × JsonValue)) :=
  if r.has_cabin_temperature_reading then
    match r.cabin_temperature_celsius with
    | some v => some [("cabinTemperature", JsonValue.num v)]
    | none => none
  else some []

/-- Engine-temperature block of the payload builder, dereference made explicit. -/
def engineTempSectionE (r : SensorReading) : Option (List (String × JsonValue)) :=
  if r.has_engine_temperature_reading then
    match r.engine_temperature_celsius with
    | some v => some [("engineTemperature", JsonValue.num v)]
    | none => none
  else some []

/-- Cabin-humidity block of the payload builder, dereference made explicit. -/
def cabinHumSectionE (r : SensorReading) : Option (List (String × JsonValue)) :=
  if r.has_cabin_humidity_reading then
    match r.cabin_humidity_percent with
    | some v => some [("cabinHumidity", JsonValue.num v)]
    | none => none
  else some []

/-- Gas block of the payload builder: under the has_gas_reading guard the code
calls reading.gas_type.lower(), which on an absent value would be a Python
AttributeError, modelled as none. -/
def gasSectionE (r : SensorReading) : Option (List (String × JsonValue)) :=
  if r.has_gas_reading then
    match r.gas_type, r.gas_concentration_ppm with
    | some gt, some ppm =>
        some [("cabinGasType", JsonValue.str (backendGasType gt)),
              ("cabinGasConcentration", JsonValue.num ppm)]
    | _, _ => none
  else some []

/-- GPS block of the payload builder, dereferences made explicit. -/
def gpsSectionE (r : SensorReading) : Option (List (String × JsonValue)) :=
  if r.has_gps_reading then
    match r.latitude, r.longitude with
    | some la, some lo =>
        some [("latitude", JsonValue.num la), ("longitude", JsonValue.num lo)]
    | _, _ => none
  else some []

/-- Current block of the payload builder, dereference made explicit. -/
def currentSectionE (r : SensorReading) : Option (List (String × JsonValue)) :=
  if r.has_current_reading then
    match r.current_amperes with
    | some v => some [("electricalCurrent", JsonValue.num v)]
    | none => none
  else some []

/-- build_telemetry_payload with every guarded dereference failure-explicit.
The timestamp field is always set by the entity constructor, so the base block
cannot fail. -/
def build_telemetry_payloadE (r : SensorReading) (telemetry_type severity : String) :
    Option (List (String × JsonValue)) := do
  let base := [("macAddress", JsonValue.str r.device_id),
               ("type", JsonValue.str telemetry_type),
               ("severity", JsonValue.str severity),
               ("timestamp", JsonValue.str r.timestamp)]
  let pCabinTemp ← cabinTempSectionE r
  let pEngineTemp ← engineTempSectionE r
  let pCabinHum ← cabinHumSectionE r
  let pGas ← gasSectionE r
  let pGps ← gpsSectionE r
  let pCurrent ← currentSectionE r
  pure (base ++ pCabinTemp ++ pEngineTemp ++ pCabinHum ++ pGas ++ pGps ++ pCurrent)

/-- Severity contributed by the cabin-temperature rule alone. -/
def cabinTempRule (r : SensorReading) : Severity :=
  match r.cabin_temperature_celsius with
  | some temp =>
      if CABIN_TEMP_CRITICAL_HIGH ≤ temp ∨ temp ≤ TEMP_WARNING_LOW then .CRITICAL
      else if CABIN_TEMP_WARNING_HIGH ≤ temp then .WARNING
      else .INFO
  | none => .INFO

/-- Severity contributed by the engine-temperature rule alone. -/
def engineTempRule (r : SensorReading) : Severity :=
  match r.engine_temperature_celsius with
  | some temp =>
      if ENGINE_TEMP_CRITICAL_HIGH ≤ temp then .CRITICAL
      else if ENGINE_TEMP_WARNING_HIGH ≤ temp then .WARNING
      else .INFO
  | none => .INFO

/-- Severity contributed by one humidity value alone (never above WARNING). -/
def humidityRule (humidity : Option ℚ) : Severity :=
  match humidity with
  | some h =>
      if HUMIDITY_CRITICAL_HIGH ≤ h then .WARNING
      else if h ≤ HUMIDITY_WARNING_LOW then .WARNING
      else .INFO
  | none => .INFO

/-- Severity contributed by the gas rule alone (active only when the full gas
pair is present, as in has_gas_reading). -/
def gasRule (r : SensorReading) : Severity :=
  if r.has_gas_reading then
    match r.gas_concentration_ppm with
    | some g =>
        if GAS_CRITICAL_PPM ≤ g then .CRITICAL
        else if GAS_WARNING_PPM ≤ g then .WARNING
        else .INFO
    | none => .INFO
  else .INFO

/-- Severity contributed by the current rule alone (never above WARNING). -/
def currentRule (r : SensorReading) : Severity :=
  if r.has_current_reading then
    match r.current_amperes with
    | some c =>
        if CURRENT_CRITICAL_HIGH ≤ c ∨ c ≤ CURRENT_WARNING_LOW then .WARNING
        else if CURRENT_WARNING_HIGH ≤ c then .WARNING
        else .INFO
    | none => .INFO
  else .INFO

/-- Modelled from the spec wording of telemetry-type selection (claim C5): the
CRITICAL-priority cases first, otherwise the fallback order; to be compared
with the source-derived determine_telemetry_type. -/
def specTelemetryType (r : SensorReading) : String :=
  let fallback :=
    if r.has_gas_reading then "CABIN_GAS_DETECTED"
    else if r.has_gps_reading then "LOCATION_UPDATE"
    else if r.has_engine_temperature_reading ∨ r.has_cabin_temperature_reading then
      "TEMPERATURE_ANOMALY"
    else if r.has_current_reading then "ELECTRICAL_FAULT"
    else "GENERAL"
  if determine_alert_severity r = .CRITICAL then
    if r.has_gas_reading then "CABIN_GAS_DETECTED"
    else if r.has_engine_temperature_reading then "ENGINE_OVERHEAT"
    else if r.has_current_reading then "ELECTRICAL_FAULT"
    else fallback
  else fallback

/-- A reading with every sensor field absent, used as the base of the concrete
scenarios. -/
def baseReading : SensorReading :=
  { device_id := "AA:BB:CC:DD:EE:FF"
    vehicle_id := 1
    driver_id := 1
    sensor_location := none
    cabin_temperature_celsius := none
    cabin_humidity_percent := none
    engine_temperature_celsius := none
    engine_humidity_percent := none
    gas_type := none
    gas_concentration_ppm := none
    latitude := none
    longitude := none
    current_amperes := none
    timestamp := "2025-11-27T20:00:00+00:00" }

/-- Spec scenario B: engine temperature 98.5, current 4.3, nothing else. -/
def scenarioBReading : SensorReading :=
  { baseReading with
    engine_temperature_celsius := some (98.5 : ℚ)
    current_amperes := some (4.3 : ℚ) }

/-- A trivial stand-in for the external timestamp parser in concrete runs. -/
def noParse : String → Option String := fun _ => none

/-- A fixed construction-time clock value for concrete runs. -/
def nowStr : String := "2025-01-01T00:00:00+00:00"

/-- The string constant the code uses for each severity value. -/
def Severity.toStr : Severity → String
  | .INFO => "INFO"
  | .WARNING => "WARNING"
  | .CRITICAL => "CRITICAL"

/-- A reading whose gas pair is at a critical concentration. -/
def gasCriticalReading : SensorReading :=
  { baseReading with
    gas_type := some "methane"
    gas_concentration_ppm := some 6000 }

/-- A reading whose gas label is smoke (not one of the six fuel labels). -/
def smokeReading : SensorReading :=
  { baseReading with
    gas_type := some "smoke"
    gas_concentration_ppm := some 450 }

/-- A reading whose gas label is propane (spec scenario D). -/
def propaneReading : SensorReading :=
  { baseReading with
    gas_type := some "propane"
    gas_concentration_ppm := some 1250 }

/-- The reading produced by a validation run given only a cabin temperature and
a gas type with no gas concentration. -/
def gasTypeOnlyReading : SensorReading :=
  { baseReading with
    device_id := "dev"
    cabin_temperature_celsius := some 25
    gas_type := some "methane"
    timestamp := nowStr }

/-- The reading produced by a validation run given only an engine humidity. -/
def engineHumidityOnlyReading : SensorReading :=
  { baseReading with
    device_id := "dev"
    engine_humidity_percent := some 55
    timestamp := nowStr }

/-- Modelled from the amended claim C2: the six fuel labels map to FUEL_VAPOR,
smoke, co and co2 to their own backend enum values, and every other label to
UNKNOWN; to be compared with the source-derived backendGasType. -/
def amendedGasTable (x : String) : String :=
  if x ∈ ["methane", "propane", "butane", "lpg", "alcohol", "hydrogen"] then "FUEL_VAPOR"
  else if x = "smoke" then "SMOKE"
  else if x = "co" then "CO"
  else if x = "co2" then "CO2"
  else "UNKNOWN"

/-- Every key the payload builder can ever emit (in insertion order of the
source). No engine-humidity key is among them. -/
def allowedPayloadKeys : List String :=
  ["macAddress", "type", "severity", "timestamp",
   "cabinTemperature", "engineTemperature", "cabinHumidity",
   "cabinGasType", "cabinGasConcentration",
   "latitude", "longitude", "electricalCurrent"]

/-- The first severity check runs with the running severity still at INFO, so
it returns exactly the cabin-temperature rule value. -/
theorem cabinTempStep_eq_rule (r : SensorReading) :
    cabinTempStep r .INFO = cabinTempRule r := by
  rcases r with ⟨d, vi, dr, loc, ct, ch, et, eh, gt, gp, la, lo, cu, ts⟩
  cases ct <;> rfl

/-- The engine-temperature check joins the rule value onto the running severity. -/
theorem engineTempStep_sevMax (r : SensorReading) (s : Severity) :
    engineTempStep r s = sevMax s (engineTempRule r) := by
  rcases r with ⟨d, vi, dr, loc, ct, ch, et, eh, gt, gp, la, lo, cu, ts⟩
  cases et with
  | none => cases s <;> rfl
  | some t =>
      cases s <;>
        simp only [engineTempStep, engineTempRule, SensorReading.has_engine_temperature_reading,
          Option.isSome_some, if_true, sevMax] <;>
        split_ifs <;> simp_all [sevMax]

/-- Each humidity-loop iteration joins the humidity rule value onto the
running severity. -/
theorem humidityCheck_sevMax (h : Option ℚ) (s : Severity) :
    humidityCheck h s = sevMax s (humidityRule h) := by
  cases h with
  | none => cases s <;> rfl
  | some v =>
      cases s <;> simp only [humidityCheck, humidityRule] <;>
        split_ifs <;> simp_all [sevMax]

/-- The gas check joins the gas rule value onto the running severity. -/
theorem gasStep_sevMax (r : SensorReading) (s : Severity) :
    gasStep r s = sevMax s (gasRule r) := by
  rcases r with ⟨d, vi, dr, loc, ct, ch, et, eh, gt, gp, la, lo, cu, ts⟩
  cases gt <;> cases gp <;> cases s <;>
    simp only [gasStep, gasRule, SensorReading.has_gas_reading, Option.isSome_some,
      Option.isSome_none, Bool.and_self, Bool.and_false, Bool.false_and, Bool.and_true,
      Bool.true_and, if_true, if_false, sevMax] <;>
    split_ifs <;> simp_all [sevMax]

/-- The current check joins the current rule value onto the running severity. -/
theorem currentStep_sevMax (r : SensorReading) (s : Severity) :
    currentStep r s = sevMax s (currentRule r) := by
  rcases r with ⟨d, vi, dr, loc, ct, ch, et, eh, gt, gp, la, lo, cu, ts⟩
  cases cu with
  | none => cases s <;> rfl
  | some c =>
      cases s <;>
        simp only [currentStep, currentRule, SensorReading.has_current_reading,
          Option.isSome_some, if_true, sevMax] <;>
        split_ifs <;> simp_all [sevMax]

/-- The sequential escalation of determine_alert_severity equals the join of
the six per-field rule severities, in source order. -/
theorem determine_alert_severity_eq_max (r : SensorReading) :
    determine_alert_severity r =
      sevMax (sevMax (sevMax (sevMax (sevMax (cabinTempRule r) (engineTempRule r))
        (humidityRule r.cabin_humidity_percent)) (humidityRule r.engine_humidity_percent))
        (gasRule r)) (currentRule r) := by
  simp only [determine_alert_severity, cabinTempStep_eq_rule, engineTempStep_sevMax,
    humidityCheck_sevMax, gasStep_sevMax, currentStep_sevMax]

/-- CRITICAL absorbs on the left of the severity join. -/
theorem sevMax_CRITICAL_left (b : Severity) : sevMax .CRITICAL b = .CRITICAL := by
  cases b <;> rfl

/-- CRITICAL absorbs on the right of the severity join. -/
theorem sevMax_CRITICAL_right (a : Severity) : sevMax a .CRITICAL = .CRITICAL := by
  cases a <;> rfl

/-- The severity join realizes the maximum under the rank order
INFO < WARNING < CRITICAL. -/
theorem sevMax_rank (a b : Severity) :
    sevRank (sevMax a b) = Nat.max (sevRank a) (sevRank b) := by
  cases a <;> cases b <;> rfl

/-- C1: severity classification is monotonic and maximal. For every reading,
determine_alert_severity returns the join, under INFO < WARNING < CRITICAL, of
the per-field rule severities (cabin temperature, engine temperature, the two
humidities, gas, current); in particular, if the cabin-temperature rule
(at least 50 or at most -10), the engine-temperature rule (at least 110) or the
gas rule (at least 5000 ppm) reaches CRITICAL, the result is CRITICAL
regardless of every other field. -/
theorem severity_is_join_of_field_rules (r : SensorReading) :
    determine_alert_severity r =
      sevMax (sevMax (sevMax (sevMax (sevMax (cabinTempRule r) (engineTempRule r))
        (humidityRule r.cabin_humidity_percent)) (humidityRule r.engine_humidity_percent))
        (gasRule r)) (currentRule r) ∧
    ((cabinTempRule r = .CRITICAL ∨ engineTempRule r = .CRITICAL ∨ gasRule r = .CRITICAL) →
      determine_alert_severity r = .CRITICAL) := by
  refine ⟨determine_alert_severity_eq_max r, ?_⟩
  intro h
  rw [determine_alert_severity_eq_max]
  rcases h with h | h | h <;> rw [h] <;>
    simp only [sevMax_CRITICAL_left, sevMax_CRITICAL_right]

/-- Witness for C1 at a concrete reading whose gas rule is CRITICAL. -/
theorem severity_is_join_of_field_rules_witness :
    determine_alert_severity gasCriticalReading = .CRITICAL :=
  (severity_is_join_of_field_rules gasCriticalReading).2 (Or.inr (Or.inr (by decide)))

/-- C5: determine_telemetry_type equals the spec-worded priority selection:
the CRITICAL cases (gas, then engine temperature, then current) first,
otherwise the fallback order (gas, GPS, temperature, current, GENERAL). -/
theorem telemetry_type_priority (r : SensorReading) :
    determine_telemetry_type r = specTelemetryType r := by
  unfold determine_telemetry_type specTelemetryType
  by_cases h : determine_alert_severity r = .CRITICAL <;> simp [h]

/-- The engine-temperature rule of the scenario-B reading yields WARNING. -/
theorem scenarioB_engineRule : engineTempRule scenarioBReading = .WARNING := by
  simp only [engineTempRule, scenarioBReading, baseReading, ENGINE_TEMP_CRITICAL_HIGH,
    ENGINE_TEMP_WARNING_HIGH]
  norm_num

/-- The current rule of the scenario-B reading yields WARNING. -/
theorem scenarioB_currentRule : currentRule scenarioBReading = .WARNING := by
  simp only [currentRule, scenarioBReading, baseReading, SensorReading.has_current_reading,
    Option.isSome_some, if_true, CURRENT_CRITICAL_HIGH, CURRENT_WARNING_HIGH,
    CURRENT_WARNING_LOW]
  norm_num

/-- The scenario-B reading classifies as WARNING. -/
theorem scenarioB_severity : determine_alert_severity scenarioBReading = .WARNING := by
  rw [determine_alert_severity_eq_max, scenarioB_engineRule, scenarioB_currentRule]
  rfl

/-- C6: for the reading with engine temperature 98.5 and current 4.3 only, the
severity is WARNING (engine temperature at least 95 escalates; current 4.3
cannot escalate past the WARNING already set) and the telemetry type is
TEMPERATURE_ANOMALY, not ENGINE_OVERHEAT, because the CRITICAL branch is not
taken and temperature precedes current in the fallback. -/
theorem scenarioB_classification :
    determine_alert_severity scenarioBReading = .WARNING ∧
    determine_telemetry_type scenarioBReading = "TEMPERATURE_ANOMALY" ∧
    "TEMPERATURE_ANOMALY" ≠ "ENGINE_OVERHEAT" := by
  refine ⟨scenarioB_severity, ?_, by decide⟩
  simp only [determine_telemetry_type, scenarioB_severity]
  rfl

/-- The source gas-type lookup agrees with the amended nine-label table, after
lower-casing. -/
theorem backendGasType_eq_amended (label : String) :
    backendGasType label = amendedGasTable (pyLower label) := by
  unfold backendGasType amendedGasTable gas_type_mapping
  generalize pyLower label = x
  by_cases h1 : x = "methane"
  · subst h1; rfl
  by_cases h2 : x = "propane"
  · subst h2; rfl
  by_cases h3 : x = "butane"
  · subst h3; rfl
  by_cases h4 : x = "lpg"
  · subst h4; rfl
  by_cases h5 : x = "alcohol"
  · subst h5; rfl
  by_cases h6 : x = "hydrogen"
  · subst h6; rfl
  by_cases h7 : x = "smoke"
  · subst h7; rfl
  by_cases h8 : x = "co"
  · subst h8; rfl
  by_cases h9 : x = "co2"
  · subst h9; rfl
  have e1 : (x == "methane") = false := by simp [beq_eq_false_iff_ne, h1]
  have e2 : (x == "propane") = false := by simp [beq_eq_false_iff_ne, h2]
  have e3 : (x == "butane") = false := by simp [beq_eq_false_iff_ne, h3]
  have e4 : (x == "lpg") = false := by simp [beq_eq_false_iff_ne, h4]
  have e5 : (x == "alcohol") = false := by simp [beq_eq_false_iff_ne, h5]
  have e6 : (x == "hydrogen") = false := by simp [beq_eq_false_iff_ne, h6]
  have e7 : (x == "smoke") = false := by simp [beq_eq_false_iff_ne, h7]
  have e8 : (x == "co") = false := by simp [beq_eq_false_iff_ne, h8]
  have e9 : (x == "co2") = false := by simp [beq_eq_false_iff_ne, h9]
  simp [List.lookup, e1, e2, e3, e4, e5, e6, e7, e8, e9, h1, h2, h3, h4, h5, h6, h7, h8, h9]

/-- For a reading with the gas pair present, the payload's cabinGasType entry
is the mapped gas label. -/
theorem payload_lookup_cabinGasType (r : SensorReading) (t s : String) (gt : String) (ppm : ℚ)
    (hgt : r.gas_type = some gt) (hppm : r.gas_concentration_ppm = some ppm) :
    (build_telemetry_payload r t s).lookup "cabinGasType" =
      some (JsonValue.str (backendGasType gt)) := by
  rcases r with ⟨d, vi, dr, loc, ct, ch, et, eh, gtf, gpf, la, lo, cu, ts⟩
  simp only at hgt hppm
  subst hgt hppm
  cases ct <;> cases et <;> cases ch <;> rfl

/-- C2 counterexample: the label smoke is not one of the six fuel-vapor labels,
yet the built payload maps it to SMOKE, not to UNKNOWN as the claim requires. -/
theorem gas_map_smoke_not_unknown :
    "smoke" ∉ ["methane", "propane", "butane", "lpg", "alcohol", "hydrogen"] ∧
    (build_telemetry_payload smokeReading "CABIN_GAS_DETECTED" "INFO").lookup "cabinGasType" =
      some (JsonValue.str "SMOKE") ∧
    JsonValue.str "SMOKE" ≠ JsonValue.str "UNKNOWN" := by
  refine ⟨by decide, by decide, by decide⟩

/-- C2 amended: the payload's cabinGasType comes from a case-insensitive lookup
in which the six fuel labels map to FUEL_VAPOR, smoke, co and co2 map to SMOKE,
CO and CO2, and every other label maps to UNKNOWN; concretely propane yields
FUEL_VAPOR and unknowngas yields UNKNOWN. -/
theorem gas_label_mapping (label : String) :
    backendGasType label = amendedGasTable (pyLower label) ∧
    (∀ (r : SensorReading) (t s : String) (gt : String) (ppm : ℚ),
      r.gas_type = some gt → r.gas_concentration_ppm = some ppm →
      (build_telemetry_payload r t s).lookup "cabinGasType" =
        some (JsonValue.str (backendGasType gt))) ∧
    backendGasType "propane" = "FUEL_VAPOR" ∧
    backendGasType "unknowngas" = "UNKNOWN" :=
  ⟨backendGasType_eq_amended label,
   fun r t s gt ppm hgt hppm => payload_lookup_cabinGasType r t s gt ppm hgt hppm,
   by decide, by decide⟩

/-- Witness for C2 at the propane reading of spec scenario D. -/
theorem gas_label_mapping_witness :
    (build_telemetry_payload propaneReading "CABIN_GAS_DETECTED" "WARNING").lookup
        "cabinGasType" = some (JsonValue.str (backendGasType "propane")) :=
  (gas_label_mapping "propane").2.1 propaneReading "CABIN_GAS_DETECTED" "WARNING"
    "propane" 1250 rfl rfl

/-- The explicit-failure cabin-temperature check never actually fails. -/
theorem cabinTempStepE_eq (r : SensorReading) (s : Severity) :
    cabinTempStepE r s = some (cabinTempStep r s) := by
  rcases r with ⟨d, vi, dr, loc, ct, ch, et, eh, gt, gp, la, lo, cu, ts⟩
  cases ct <;> rfl

/-- The explicit-failure engine-temperature check never actually fails. -/
theorem engineTempStepE_eq (r : SensorReading) (s : Severity) :
    engineTempStepE r s = some (engineTempStep r s) := by
  rcases r with ⟨d, vi, dr, loc, ct, ch, et, eh, gt, gp, la, lo, cu, ts⟩
  cases et <;> rfl

/-- The explicit-failure gas check never actually fails. -/
theorem gasStepE_eq (r : SensorReading) (s : Severity) :
    gasStepE r s = some (gasStep r s) := by
  rcases r with ⟨d, vi, dr, loc, ct, ch, et, eh, gt, gp, la, lo, cu, ts⟩
  cases gt <;> cases gp <;> rfl

/-- The explicit-failure current check never actually fails. -/
theorem currentStepE_eq (r : SensorReading) (s : Severity) :
    currentStepE r s = some (currentStep r s) := by
  rcases r with ⟨d, vi, dr, loc, ct, ch, et, eh, gt, gp, la, lo, cu, ts⟩
  cases cu <;> rfl

/-- Severity determination with explicit failure always succeeds, with the
total function's value. -/
theorem determine_alert_severityE_eq (r : SensorReading) :
    determine_alert_severityE r = some (determine_alert_severity r) := by
  simp [determine_alert_severityE, determine_alert_severity, cabinTempStepE_eq,
    engineTempStepE_eq, gasStepE_eq, currentStepE_eq]

/-- Telemetry-type determination with explicit failure always succeeds, with
the total function's value. -/
theorem determine_telemetry_typeE_eq (r : SensorReading) :
    determine_telemetry_typeE r = some (determine_telemetry_type r) := by
  simp [determine_telemetry_typeE, determine_alert_severityE_eq, determine_telemetry_type]

/-- The explicit-failure cabin-temperature payload block never fails. -/
theorem cabinTempSectionE_eq (r : SensorReading) :
    cabinTempSectionE r = some (cabinTempSection r) := by
  rcases r with ⟨d, vi, dr, loc, ct, ch, et, eh, gt, gp, la, lo, cu, ts⟩
  cases ct <;> rfl

/-- The explicit-failure engine-temperature payload block never fails. -/
theorem engineTempSectionE_eq (r : SensorReading) :
    engineTempSectionE r = some (engineTempSection r) := by
  rcases r with ⟨d, vi, dr, loc, ct, ch, et, eh, gt, gp, la, lo, cu, ts⟩
  cases et <;> rfl

/-- The explicit-failure cabin-humidity payload block never fails. -/
theorem cabinHumSectionE_eq (r : SensorReading) :
    cabinHumSectionE r = some (cabinHumSection r) := by
  rcases r with ⟨d, vi, dr, loc, ct, ch, et, eh, gt, gp, la, lo, cu, ts⟩
  cases ch <;> rfl

/-- The explicit-failure gas payload block never fails. -/
theorem gasSectionE_eq (r : SensorReading) :
    gasSectionE r = some (gasSection r) := by
  rcases r with ⟨d, vi, dr, loc, ct, ch, et, eh, gt, gp, la, lo, cu, ts⟩
  cases gt <;> cases gp <;> rfl

/-- The explicit-failure GPS payload block never fails. -/
theorem gpsSectionE_eq (r : SensorReading) :
    gpsSectionE r = some (gpsSection r) := by
  rcases r with ⟨d, vi, dr, loc, ct, ch, et, eh, gt, gp, la, lo, cu, ts⟩
  cases la <;> cases lo <;> rfl

/-- The explicit-failure current payload block never fails. -/
theorem currentSectionE_eq (r : SensorReading) :
    currentSectionE r = some (currentSection r) := by
  rcases r with ⟨d, vi, dr, loc, ct, ch, et, eh, gt, gp, la, lo, cu, ts⟩
  cases cu <;> rfl

/-- The payload builder with explicit failure always succeeds, with the total
function's value. -/
theorem build_telemetry_payloadE_eq (r : SensorReading) (t s : String) :
    build_telemetry_payloadE r t s = some (build_telemetry_payload r t s) := by
  simp [build_telemetry_payloadE, build_telemetry_payload, cabinTempSectionE_eq,
    engineTempSectionE_eq, cabinHumSectionE_eq, gasSectionE_eq, gpsSectionE_eq,
    currentSectionE_eq]

/-- C7: classification and backend mapping are total. With every optional-field
dereference modelled as explicitly failing on an absent value, severity
determination, telemetry-type determination and the payload builder still
always return a value — each dereference is protected by its presence guard,
and the timestamp is always set — and that value is the total embedding's. -/
theorem classification_and_mapping_total (r : SensorReading) (t s : String) :
    determine_alert_severityE r = some (determine_alert_severity r) ∧
    determine_telemetry_typeE r = some (determine_telemetry_type r) ∧
    build_telemetry_payloadE r t s = some (build_telemetry_payload r t s) :=
  ⟨determine_alert_severityE_eq r, determine_telemetry_typeE_eq r,
   build_telemetry_payloadE_eq r t s⟩

/-- Peeling an error branch off the validation chain, given an ok result. -/
theorem ite_error_ok {c : Prop} [Decidable c] {e : ValidationError}
    {rest : Except ValidationError SensorReading} {r : SensorReading}
    (h : (if c then Except.error e else rest) = .ok r) : rest = .ok r := by
  by_cases hc : c
  · rw [if_pos hc] at h
    exact Except.noConfusion h
  · rwa [if_neg hc] at h

/-- Peeling an error branch off the validation chain, given a different error. -/
theorem ite_error_peel {c : Prop} [Decidable c] {e e' : ValidationError}
    {rest : Except ValidationError SensorReading} (hne : e ≠ e')
    (h : (if c then Except.error e else rest) = .error e') : rest = .error e' := by
  by_cases hc : c
  · rw [if_pos hc] at h
    injection h with h'
    exact absurd h' hne
  · rwa [if_neg hc] at h

/-- A reading accepted by the final non-empty check satisfies is_valid. -/
theorem finishReading_ok {x r : SensorReading} (h : finishReading x = .ok r) :
    r.is_valid = true := by
  unfold finishReading at h
  split_ifs at h with hv
  injection h with h'
  subst h'
  exact hv

/-- The final non-empty check can fail only with the emptyReading error. -/
theorem finishReading_ne_mdf (x : SensorReading) :
    finishReading x ≠ .error .missingDependentField := by
  unfold finishReading
  split_ifs <;> simp

/-- Timestamp parsing can fail only with the invalidTimestamp error. -/
theorem parseTimestamp_no_mdf (parseTs : String → Option String) (ts : Option String) :
    parseTimestamp parseTs ts ≠ .error .missingDependentField := by
  cases ts with
  | none => simp [parseTimestamp]
  | some s =>
      simp only [parseTimestamp]
      split_ifs
      · simp
      · cases parseTs s <;> simp

/-- With no gas concentration, validation can never report the
missing-dependent-field error: the dependency check is one-directional. -/
theorem no_mdf_without_ppm
    (parseTs : String → Option String) (now dev : String) (vi di : Option Int)
    (sl : Option String) (ct ch et eh : Option ℚ) (gt : Option String)
    (la lo cu : Option ℚ) (ts : Option String) :
    create_sensor_reading parseTs now dev vi di sl ct ch et eh gt none la lo cu ts ≠
      .error .missingDependentField := by
  intro h
  unfold create_sensor_reading at h
  iterate 9 replace h := ite_error_peel (by decide) h
  rw [if_neg (show ¬(gasTypeMissing none gt = true) from Bool.false_ne_true)] at h
  iterate 4 replace h := ite_error_peel (by decide) h
  revert h
  split
  · rename_i e heq
    intro h
    injection h with h'
    subst h'
    exact parseTimestamp_no_mdf parseTs ts heq
  · intro h
    exact finishReading_ne_mdf _ h

/-- A present gas concentration with an absent or blank gas type yields the
missing-dependent-field error once every earlier check passes. -/
theorem create_error_of_gasTypeMissing
    (parseTs : String → Option String) (now dev : String) (vi di : Option Int)
    (sl : Option String) (ct ch et eh : Option ℚ) (gt : Option String)
    (ppm : Option ℚ) (la lo cu : Option ℚ) (ts : Option String)
    (h1 : pyStrip dev ≠ "") (h2 : idInvalid vi = false) (h3 : idInvalid di = false)
    (h4 : locationInvalid sl = false)
    (h5 : outOfRangeOpt (-40) 80 ct = false) (h6 : outOfRangeOpt (-40) 125 et = false)
    (h7 : outOfRangeOpt 0 100 ch = false) (h8 : outOfRangeOpt 0 100 eh = false)
    (h9 : gasNegative ppm = false) (h10 : gasTypeMissing ppm gt = true) :
    create_sensor_reading parseTs now dev vi di sl ct ch et eh gt ppm la lo cu ts =
      .error .missingDependentField := by
  unfold create_sensor_reading
  rw [if_neg h1, if_neg (by rw [h2]; exact Bool.false_ne_true),
    if_neg (by rw [h3]; exact Bool.false_ne_true),
    if_neg (by rw [h4]; exact Bool.false_ne_true),
    if_neg (by rw [h5]; exact Bool.false_ne_true),
    if_neg (by rw [h6]; exact Bool.false_ne_true),
    if_neg (by rw [h7]; exact Bool.false_ne_true),
    if_neg (by rw [h8]; exact Bool.false_ne_true),
    if_neg (by rw [h9]; exact Bool.false_ne_true),
    if_pos h10]

/-- Exactly one coordinate present (each in range) yields the incomplete
coordinate-pair error once every earlier check passes, in either direction. -/
theorem create_error_of_incompleteCoords
    (parseTs : String → Option String) (now dev : String) (vi di : Option Int)
    (sl : Option String) (ct ch et eh : Option ℚ) (gt : Option String)
    (ppm : Option ℚ) (la lo cu : Option ℚ) (ts : Option String)
    (h1 : pyStrip dev ≠ "") (h2 : idInvalid vi = false) (h3 : idInvalid di = false)
    (h4 : locationInvalid sl = false)
    (h5 : outOfRangeOpt (-40) 80 ct = false) (h6 : outOfRangeOpt (-40) 125 et = false)
    (h7 : outOfRangeOpt 0 100 ch = false) (h8 : outOfRangeOpt 0 100 eh = false)
    (h9 : gasNegative ppm = false) (h10 : gasTypeMissing ppm gt = false)
    (h11 : outOfRangeOpt (-90) 90 la = false) (h12 : outOfRangeOpt (-180) 180 lo = false)
    (h13 : coordsIncomplete la lo = true) :
    create_sensor_reading parseTs now dev vi di sl ct ch et eh gt ppm la lo cu ts =
      .error .incompleteCoordinatePair := by
  unfold create_sensor_reading
  rw [if_neg h1, if_neg (by rw [h2]; exact Bool.false_ne_true),
    if_neg (by rw [h3]; exact Bool.false_ne_true),
    if_neg (by rw [h4]; exact Bool.false_ne_true),
    if_neg (by rw [h5]; exact Bool.false_ne_true),
    if_neg (by rw [h6]; exact Bool.false_ne_true),
    if_neg (by rw [h7]; exact Bool.false_ne_true),
    if_neg (by rw [h8]; exact Bool.false_ne_true),
    if_neg (by rw [h9]; exact Bool.false_ne_true),
    if_neg (by rw [h10]; exact Bool.false_ne_true),
    if_neg (by rw [h11]; exact Bool.false_ne_true),
    if_neg (by rw [h12]; exact Bool.false_ne_true),
    if_pos h13]

/-- An out-of-range cabin temperature is reported as soon as the identifier and
location checks pass, regardless of all later fields. -/
theorem create_error_of_outOfRangeCabin
    (parseTs : String → Option String) (now dev : String) (vi di : Option Int)
    (sl : Option String) (ct ch et eh : Option ℚ) (gt : Option String)
    (ppm : Option ℚ) (la lo cu : Option ℚ) (ts : Option String)
    (h1 : pyStrip dev ≠ "") (h2 : idInvalid vi = false) (h3 : idInvalid di = false)
    (h4 : locationInvalid sl = false)
    (h5 : outOfRangeOpt (-40) 80 ct = true) :
    create_sensor_reading parseTs now dev vi di sl ct ch et eh gt ppm la lo cu ts =
      .error (.outOfRange "cabin_temperature_celsius") := by
  unfold create_sensor_reading
  rw [if_neg h1, if_neg (by rw [h2]; exact Bool.false_ne_true),
    if_neg (by rw [h3]; exact Bool.false_ne_true),
    if_neg (by rw [h4]; exact Bool.false_ne_true),
    if_pos h5]

/-- C3 counterexample: a gas type present without a gas concentration does not
fail with missingDependentField; with another sensor field present the input
validates successfully. -/
theorem gas_dependency_vice_versa_cex :
    create_sensor_reading noParse nowStr "dev" (some 1) (some 1) none (some 25) none none
        none (some "methane") none none none none none = .ok gasTypeOnlyReading ∧
    gasTypeOnlyReading.gas_type = some "methane" ∧
    gasTypeOnlyReading.gas_concentration_ppm = none := ⟨rfl, rfl, rfl⟩

/-- C3 amended: the dependency failures are not symmetric. A present gas
concentration without a non-empty gas type fails with missingDependentField
(once the earlier checks pass), but a gas type without a concentration never
produces missingDependentField; the coordinate-pair rule is symmetric: exactly
one in-range coordinate present fails with incompleteCoordinatePair. -/
theorem gas_and_coordinate_dependency :
    (∀ (parseTs : String → Option String) (now dev : String) (vi di : Option Int)
       (sl : Option String) (ct ch et eh : Option ℚ) (gt : Option String)
       (la lo cu : Option ℚ) (ts : Option String),
       create_sensor_reading parseTs now dev vi di sl ct ch et eh gt none la lo cu ts ≠
         .error .missingDependentField) ∧
    (∀ (parseTs : String → Option String) (now dev : String) (vi di : Option Int)
       (sl : Option String) (ct ch et eh : Option ℚ) (gt : Option String)
       (ppm : Option ℚ) (la lo cu : Option ℚ) (ts : Option String),
       pyStrip dev ≠ "" → idInvalid vi = false → idInvalid di = false →
       locationInvalid sl = false →
       outOfRangeOpt (-40) 80 ct = false → outOfRangeOpt (-40) 125 et = false →
       outOfRangeOpt 0 100 ch = false → outOfRangeOpt 0 100 eh = false →
       gasNegative ppm = false → gasTypeMissing ppm gt = true →
       create_sensor_reading parseTs now dev vi di sl ct ch et eh gt ppm la lo cu ts =
         .error .missingDependentField) ∧
    (∀ (parseTs : String → Option String) (now dev : String) (vi di : Option Int)
       (sl : Option String) (ct ch et eh : Option ℚ) (gt : Option String)
       (ppm : Option ℚ) (la lo cu : Option ℚ) (ts : Option String),
       pyStrip dev ≠ "" → idInvalid vi = false → idInvalid di = false →
       locationInvalid sl = false →
       outOfRangeOpt (-40) 80 ct = false → outOfRangeOpt (-40) 125 et = false →
       outOfRangeOpt 0 100 ch = false → outOfRangeOpt 0 100 eh = false →
       gasNegative ppm = false → gasTypeMissing ppm gt = false →
       outOfRangeOpt (-90) 90 la = false → outOfRangeOpt (-180) 180 lo = false →
       coordsIncomplete la lo = true →
       create_sensor_reading parseTs now dev vi di sl ct ch et eh gt ppm la lo cu ts =
         .error .incompleteCoordinatePair) :=
  ⟨no_mdf_without_ppm, create_error_of_gasTypeMissing, create_error_of_incompleteCoords⟩

/-- Witness for C3 at concrete inputs: concentration without type, and a lone
longitude. -/
theorem gas_and_coordinate_dependency_witness :
    create_sensor_reading noParse nowStr "dev" (some 1) (some 1) none none none none none
        none (some 100) none none none none = .error .missingDependentField ∧
    create_sensor_reading noParse nowStr "dev" (some 1) (some 1) none none none none none
        none none none (some 10) none none = .error .incompleteCoordinatePair := by
  constructor
  · exact gas_and_coordinate_dependency.2.1 noParse nowStr "dev" (some 1) (some 1) none
      none none none none none (some 100) none none none none
      (by decide) (by decide) (by decide) (by decide) (by decide) (by decide) (by decide)
      (by decide) (by decide) (by decide)
  · exact gas_and_coordinate_dependency.2.2 noParse nowStr "dev" (some 1) (some 1) none
      none none none none none none none (some 10) none none
      (by decide) (by decide) (by decide) (by decide) (by decide) (by decide) (by decide)
      (by decide) (by decide) (by decide) (by decide) (by decide) (by decide)

/-- C4 counterexample: an input with both an out-of-range latitude (200) and a
gas concentration without gas type reports missingDependentField — not the
out-of-range latitude error the claimed ordering requires. -/
theorem validation_order_cex :
    create_sensor_reading noParse nowStr "dev" (some 1) (some 1) none none none none none
        none (some 100) (some 200) none none none = .error .missingDependentField ∧
    ValidationError.missingDependentField ≠ .outOfRange "latitude" ∧
    outOfRangeOpt (-90) 90 (some 200) = true := ⟨rfl, by decide, by decide⟩

/-- C4 amended: the temperature, humidity and gas-concentration range checks
precede the gas-type dependency check, but that dependency check precedes the
latitude/longitude range checks, the pair-completeness check, the current range
check and timestamp parsing; so an input with both an out-of-range latitude and
a concentration without gas type reports missingDependentField, while an
out-of-range cabin temperature is reported no matter what follows it. -/
theorem validation_order :
    (∀ (parseTs : String → Option String) (now dev : String) (vi di : Option Int)
       (sl : Option String) (ct ch et eh : Option ℚ) (gt : Option String)
       (ppm : Option ℚ) (la lo cu : Option ℚ) (ts : Option String),
       pyStrip dev ≠ "" → idInvalid vi = false → idInvalid di = false →
       locationInvalid sl = false →
       outOfRangeOpt (-40) 80 ct = false → outOfRangeOpt (-40) 125 et = false →
       outOfRangeOpt 0 100 ch = false → outOfRangeOpt 0 100 eh = false →
       gasNegative ppm = false → gasTypeMissing ppm gt = true →
       outOfRangeOpt (-90) 90 la = true →
       create_sensor_reading parseTs now dev vi di sl ct ch et eh gt ppm la lo cu ts =
         .error .missingDependentField) ∧
    (∀ (parseTs : String → Option String) (now dev : String) (vi di : Option Int)
       (sl : Option String) (ct ch et eh : Option ℚ) (gt : Option String)
       (ppm : Option ℚ) (la lo cu : Option ℚ) (ts : Option String),
       pyStrip dev ≠ "" → idInvalid vi = false → idInvalid di = false →
       locationInvalid sl = false → outOfRangeOpt (-40) 80 ct = true →
       create_sensor_reading parseTs now dev vi di sl ct ch et eh gt ppm la lo cu ts =
         .error (.outOfRange "cabin_temperature_celsius")) :=
  ⟨fun parseTs now dev vi di sl ct ch et eh gt ppm la lo cu ts
      h1 h2 h3 h4 h5 h6 h7 h8 h9 h10 _ =>
      create_error_of_gasTypeMissing parseTs now dev vi di sl ct ch et eh gt ppm la lo cu ts
        h1 h2 h3 h4 h5 h6 h7 h8 h9 h10,
   create_error_of_outOfRangeCabin⟩

/-- Witness for C4 at concrete inputs: latitude 200 with an orphan gas
concentration, and cabin temperature 200. -/
theorem validation_order_witness :
    create_sensor_reading noParse nowStr "deva" (some 1) (some 1) none none none none none
        none (some 100) (some 200) none none none = .error .missingDependentField ∧
    create_sensor_reading noParse nowStr "deva" (some 1) (some 1) none (some 200) none none
        none none (some 100) none none none none =
      .error (.outOfRange "cabin_temperature_celsius") := by
  constructor
  · exact validation_order.1 noParse nowStr "deva" (some 1) (some 1) none
      none none none none none (some 100) (some 200) none none none
      (by decide) (by decide) (by decide) (by decide) (by decide) (by decide) (by decide)
      (by decide) (by decide) (by decide) (by decide)
  · exact validation_order.2 noParse nowStr "deva" (some 1) (some 1) none
      (some 200) none none none none (some 100) none none none none
      (by decide) (by decide) (by decide) (by decide) (by decide)

/-- Every ok result of validation satisfies the at-least-one-sensor predicate. -/
theorem ok_is_valid
    (parseTs : String → Option String) (now dev : String) (vi di : Option Int)
    (sl : Option String) (ct ch et eh : Option ℚ) (gt : Option String)
    (ppm : Option ℚ) (la lo cu : Option ℚ) (ts : Option String) (r : SensorReading)
    (h : create_sensor_reading parseTs now dev vi di sl ct ch et eh gt ppm la lo cu ts = .ok r) :
    r.is_valid = true := by
  unfold create_sensor_reading at h
  iterate 14 replace h := ite_error_ok h
  revert h
  split
  · intro h
    exact Except.noConfusion h
  · intro h
    exact finishReading_ok h

/-- C8: validation succeeds only for readings carrying at least one sensor
value, where the gas pair and the GPS pair each count only with both fields
present; an input with valid identifiers and all sensor fields absent fails
with emptyReading; every validated reading satisfies the predicate. -/
theorem validate_nonempty :
    (∀ (parseTs : String → Option String) (now dev : String) (vi di : Option Int)
       (sl : Option String) (ct ch et eh : Option ℚ) (gt : Option String)
       (ppm : Option ℚ) (la lo cu : Option ℚ) (ts : Option String) (r : SensorReading),
       create_sensor_reading parseTs now dev vi di sl ct ch et eh gt ppm la lo cu ts = .ok r →
       r.is_valid = true) ∧
    (∀ r : SensorReading, r.is_valid = true ↔
       (r.cabin_temperature_celsius.isSome = true ∨ r.cabin_humidity_percent.isSome = true ∨
        r.engine_temperature_celsius.isSome = true ∨ r.engine_humidity_percent.isSome = true ∨
        (r.gas_type.isSome = true ∧ r.gas_concentration_ppm.isSome = true) ∨
        (r.latitude.isSome = true ∧ r.longitude.isSome = true) ∨
        r.current_amperes.isSome = true)) ∧
    create_sensor_reading noParse nowStr "dev" (some 1) (some 1) none none none none none
      none none none none none none = .error .emptyReading := by
  refine ⟨ok_is_valid, ?_, rfl⟩
  intro r
  simp [SensorReading.is_valid, SensorReading.has_cabin_temperature_reading,
    SensorReading.has_cabin_humidity_reading, SensorReading.has_engine_temperature_reading,
    SensorReading.has_engine_humidity_reading, SensorReading.has_gas_reading,
    SensorReading.has_gps_reading, SensorReading.has_current_reading,
    Bool.or_eq_true, Bool.and_eq_true]
  tauto

/-- Witness for C8: a successful validation run yields a reading satisfying
the at-least-one-sensor predicate. -/
theorem validate_nonempty_witness : engineHumidityOnlyReading.is_valid = true :=
  validate_nonempty.1 noParse nowStr "dev" (some 1) (some 1) none none none none (some 55)
    none none none none none none engineHumidityOnlyReading rfl

/-- C9: classification and mapping are pure functions of the reading: two
readings with equal field values produce identical severities, telemetry types
and payloads (so repeated calls on the same, unchanged reading agree), and the
outputs depend on nothing but the reading and the given strings. -/
theorem classification_mapping_pure (r₁ r₂ : SensorReading) (t s : String)
    (hdev : r₁.device_id = r₂.device_id) (hveh : r₁.vehicle_id = r₂.vehicle_id)
    (hdrv : r₁.driver_id = r₂.driver_id) (hloc : r₁.sensor_location = r₂.sensor_location)
    (hct : r₁.cabin_temperature_celsius = r₂.cabin_temperature_celsius)
    (hch : r₁.cabin_humidity_percent = r₂.cabin_humidity_percent)
    (het : r₁.engine_temperature_celsius = r₂.engine_temperature_celsius)
    (heh : r₁.engine_humidity_percent = r₂.engine_humidity_percent)
    (hgt : r₁.gas_type = r₂.gas_type)
    (hgp : r₁.gas_concentration_ppm = r₂.gas_concentration_ppm)
    (hla : r₁.latitude = r₂.latitude) (hlo : r₁.longitude = r₂.longitude)
    (hcu : r₁.current_amperes = r₂.current_amperes) (hts : r₁.timestamp = r₂.timestamp) :
    determine_alert_severity r₁ = determine_alert_severity r₂ ∧
    determine_telemetry_type r₁ = determine_telemetry_type r₂ ∧
    build_telemetry_payload r₁ t s = build_telemetry_payload r₂ t s := by
  have he : r₁ = r₂ := by
    cases r₁
    cases r₂
    simp_all
  subst he
  exact ⟨rfl, rfl, rfl⟩

/-- Witness for C9 at the base reading. -/
theorem classification_mapping_pure_witness :
    determine_alert_severity baseReading = determine_alert_severity baseReading ∧
    determine_telemetry_type baseReading = determine_telemetry_type baseReading ∧
    build_telemetry_payload baseReading "GENERAL" "INFO" =
      build_telemetry_payload baseReading "GENERAL" "INFO" :=
  classification_mapping_pure baseReading baseReading "GENERAL" "INFO"
    rfl rfl rfl rfl rfl rfl rfl rfl rfl rfl rfl rfl rfl rfl

set_option maxHeartbeats 2000000 in
/-- C10: the payload never contains a key derived from engine humidity — every
emitted key belongs to the fixed key set, which has no engine-humidity entry —
and a reading whose only sensor value is engine humidity passes validation yet
produces a payload with exactly the four base keys. -/
theorem payload_no_engine_humidity :
    (∀ (r : SensorReading) (t s : String),
       ((build_telemetry_payload r t s).map Prod.fst).all
         (fun k => allowedPayloadKeys.contains k) = true) ∧
    allowedPayloadKeys.contains "engineHumidity" = false ∧
    create_sensor_reading noParse nowStr "dev" (some 1) (some 1) none none none none
        (some 55) none none none none none none = .ok engineHumidityOnlyReading ∧
    (build_telemetry_payload engineHumidityOnlyReading
        (determine_telemetry_type engineHumidityOnlyReading)
        (determine_alert_severity engineHumidityOnlyReading).toStr).map Prod.fst =
      ["macAddress", "type", "severity", "timestamp"] := by
  refine ⟨?_, by decide, rfl, by decide⟩
  intro r t s
  rcases r with ⟨d, vi, dr, loc, ct, ch, et, eh, gt, gp, la, lo, cu, ts⟩
  simp only [build_telemetry_payload, cabinTempSection, engineTempSection, cabinHumSection,
    gasSection, gpsSection, currentSection]
  cases ct <;> cases ch <;> cases et <;> cases gt <;> cases gp <;> cases la <;> cases lo <;>
    cases cu <;> rfl

end SafeCar
